import Mathlib

/-!
Shallow embedding of the PeriodicTable repository core: the isotope data
model and `buildIsotope` construction (src/server/data/elements.ts), the
Bohr-model layout arithmetic of `BohrModelView`, the nucleus swarm of
`renderNucleusSwarm`, the particle mist of `buildParticleDescriptors`,
and the element/isotope lookup routes of the Express server.

Numbers: the TypeScript source computes with JS numbers on integer-valued
inputs; every layout quantity here is exact (ℚ), with ℝ only where the
source applies `Math.cos`/`Math.sin`/`Math.PI`.  Particle counts that can
go negative under subtraction are modelled in ℤ.
-/

namespace PeriodicTable

/-- Bohr model record, from `interface BohrModel` in elements.ts. -/
structure BohrModel where
  shells : List ℕ
  electronConfiguration : String
  notes : Option String := none
deriving DecidableEq

/-- Quark breakdown record, from `interface QuarkBreakdown` in elements.ts. -/
structure QuarkBreakdown where
  up : ℤ
  down : ℤ
deriving DecidableEq

/-- Particle breakdown record, from `interface ParticleBreakdown` in
elements.ts.  `buildIsotope` always supplies `positrons`, so the optional
field is modelled as a plain integer. -/
structure ParticleBreakdown where
  protons : ℤ
  neutrons : ℤ
  electrons : ℤ
  quarks : QuarkBreakdown
  positrons : ℤ
deriving DecidableEq

/-- Isotope record, from `interface Isotope` in elements.ts. -/
structure Isotope where
  id : String
  name : String
  neutrons : ℤ
  abundance : String
  description : String
  halfLife : Option String := none
  bohrModel : BohrModel
  particleBreakdown : ParticleBreakdown
deriving DecidableEq

/-- Element record, from `interface Element` in elements.ts. -/
structure Element where
  atomicNumber : ℤ
  symbol : String
  name : String
  group : ℤ
  period : ℤ
  category : String
  atomicMass : ℚ
  summary : String
  appearance : Option String := none
  isotopes : List Isotope
deriving DecidableEq

/-- `buildQuarks` from elements.ts:
`up = protons * 2 + neutrons`, `down = protons + neutrons * 2`. -/
def buildQuarks (protons neutrons : ℤ) : QuarkBreakdown :=
  { up := protons * 2 + neutrons
    down := protons + neutrons * 2 }

/-- The options record passed to `buildIsotope` (the isotope fields other
than `id` and `particleBreakdown`, plus an optional positron count
defaulting to 0). -/
structure IsotopeOptions where
  name : String
  neutrons : ℤ
  abundance : String
  description : String
  halfLife : Option String := none
  positrons : ℤ := 0
  bohrModel : BohrModel
deriving DecidableEq

/-- `buildIsotope` from elements.ts: protons come from the element's
atomic number, `electrons = Math.max(protons - positrons, 0)`, and the id
is `symbol + "-" + (protons + neutrons)`. -/
def buildIsotope (atomicNumber : ℤ) (symbol : String)
    (options : IsotopeOptions) : Isotope :=
  let protons := atomicNumber
  let electrons := max (protons - options.positrons) 0
  { id := symbol ++ "-" ++ toString (protons + options.neutrons)
    name := options.name
    neutrons := options.neutrons
    abundance := options.abundance
    description := options.description
    halfLife := options.halfLife
    bohrModel := options.bohrModel
    particleBreakdown :=
      { protons := protons
        neutrons := options.neutrons
        electrons := electrons
        positrons := options.positrons
        quarks := buildQuarks protons options.neutrons } }

/-- The Carbon-14 entry of the static dataset in elements.ts
(atomic number 6, 8 neutrons, shells [2, 4]). -/
def carbon14 : Isotope :=
  buildIsotope 6 "C"
    { name := "Carbon-14"
      neutrons := 8
      abundance := "Trace"
      halfLife := some "5730 years"
      description := "Radiocarbon isotope forged in the upper atmosphere. Archaeologists rely on its decay clock to date human history."
      bohrModel :=
        { shells := [2, 4]
          electronConfiguration := "1s2 2s2 2p2"
          notes := some "Radioactive beta decay converts a neutron into a proton and electron, slowly transforming the atom into nitrogen." } }

/-- The Fluorine-18 entry of the static dataset in elements.ts
(atomic number 9, 9 neutrons, 1 positron, shells [2, 7]). -/
def fluorine18 : Isotope :=
  buildIsotope 9 "F"
    { name := "Fluorine-18"
      neutrons := 9
      halfLife := some "109.8 min"
      abundance := "Synthetic"
      description := "Positron-emitting isotope essential for PET scans. It illuminates metabolic hotspots inside the human body."
      positrons := 1
      bohrModel :=
        { shells := [2, 7]
          electronConfiguration := "1s2 2s2 2p5"
          notes := some "During decay a positron emerges, quickly annihilating with an electron to produce diagnostic gamma rays." } }

/-! ## Bohr model layout (`BohrModelView` in the client component) -/

/-- `diagramSize = Math.min(480, 300 + Math.max(shellCount - 3, 0) * 48)`. -/
def diagramSize (shellCount : ℕ) : ℚ :=
  min 480 (300 + max ((shellCount : ℚ) - 3) 0 * 48)

/-- `nucleusSize = Math.min(120, Math.max(72, 54 + shellCount * 6))`. -/
def nucleusSize (shellCount : ℕ) : ℚ :=
  min 120 (max 72 (54 + (shellCount : ℚ) * 6))

/-- `nucleusRadius = nucleusSize / 2`. -/
def nucleusRadius (shellCount : ℕ) : ℚ :=
  nucleusSize shellCount / 2

/-- `orbitSpacing = shellCount > 0 ? (diagramSize / 2 - 20 - nucleusRadius) / shellCount : 0`. -/
def orbitSpacing (shellCount : ℕ) : ℚ :=
  if 0 < shellCount then
    (diagramSize shellCount / 2 - 20 - nucleusRadius shellCount) / (shellCount : ℚ)
  else 0

/-- Per-shell ring radius: `radius = nucleusRadius + orbitSpacing * (shellIndex + 1)`. -/
def ringRadius (shellCount shellIndex : ℕ) : ℚ :=
  nucleusRadius shellCount + orbitSpacing shellCount * ((shellIndex : ℚ) + 1)

/-- Per-shell rotation period: `duration = 14 + shellIndex * 5` (seconds). -/
def ringDuration (shellIndex : ℕ) : ℚ :=
  14 + (shellIndex : ℚ) * 5

/-- Per-electron angles of one shell:
`rotate((360 / electronCount) * electronIndex)` for each rendered electron
(the electron spans come from `Array.from({ length: electronCount })`, so a
shell with 0 electrons renders none and the division is never evaluated). -/
def electronAngles (electronCount : ℕ) : List ℚ :=
  (List.range electronCount).map fun (electronIndex : ℕ) =>
    360 / (electronCount : ℚ) * (electronIndex : ℚ)

/-- One rendered orbit ring of the Bohr diagram. -/
structure BohrRing where
  radius : ℚ
  animationDuration : ℚ
  electronAngles : List ℚ
deriving DecidableEq

/-- The geometric output of `BohrModelView` for a shell sequence. -/
structure BohrLayout where
  diagramSize : ℚ
  nucleusSize : ℚ
  nucleusRadius : ℚ
  orbitSpacing : ℚ
  rings : List BohrRing
deriving DecidableEq

/-- The layout computed by `BohrModelView` from `isotope.bohrModel.shells`. -/
def computeBohrLayout (shells : List ℕ) : BohrLayout :=
  { diagramSize := diagramSize shells.length
    nucleusSize := nucleusSize shells.length
    nucleusRadius := nucleusRadius shells.length
    orbitSpacing := orbitSpacing shells.length
    rings := shells.enum.map fun p =>
      { radius := ringRadius shells.length p.1
        animationDuration := ringDuration p.1
        electronAngles := electronAngles p.2 } }

example : electronAngles 4 = [0, 90, 180, 270] := by
  simp [electronAngles, List.range_succ]
  norm_num

example : (computeBohrLayout []).orbitSpacing = 0 := by
  simp [computeBohrLayout, orbitSpacing]

example : (computeBohrLayout [2, 4]).rings.length = 2 := by
  simp [computeBohrLayout]

example : diagramSize 7 = 480 := by
  norm_num [diagramSize]

example : nucleusSize 1 = 72 := by
  norm_num [nucleusSize]

example : orbitSpacing 2 = (150 - 20 - 36) / 2 := by
  norm_num [orbitSpacing, diagramSize, nucleusRadius, nucleusSize]

/-! ## Nucleus swarm (`renderNucleusSwarm` in the client component) -/

/-- One marker of the nucleus swarm: styling flag, ring angle, planar
position (`translate3d(cos(angle)*radius, sin(angle)*radius, depth)`),
pseudo-depth and animation delay. -/
structure NucleusMarker where
  isProton : Bool
  angle : ℝ
  x : ℝ
  y : ℝ
  depth : ℝ
  animationDelay : ℚ

/-- `renderNucleusSwarm(protons, neutrons)`: `limit = 28`,
`total = Math.min(protons + neutrons, limit)`, and for each index
`angle = (index / total) * Math.PI * 2`, `radius = 24`,
`depth = Math.sin(index) * 10`, `isProton = index % 2 === 0`,
`animationDelay = index * 0.12` seconds. -/
noncomputable def renderNucleusSwarm (protons neutrons : ℕ) : List NucleusMarker :=
  let limit : ℕ := 28
  let total : ℕ := min (protons + neutrons) limit
  (List.range total).map fun (index : ℕ) =>
    let angle : ℝ := ((index : ℝ) / (total : ℝ)) * Real.pi * 2
    let radius : ℝ := 24
    let depth : ℝ := Real.sin (index : ℝ) * 10
    { isProton := index % 2 == 0
      angle := angle
      x := Real.cos angle * radius
      y := Real.sin angle * radius
      depth := depth
      animationDelay := (index : ℚ) * 0.12 }

/-! ## Particle mist (`buildParticleDescriptors` in the client component) -/

/-- One particle-mist descriptor (`ParticleDescriptor` in the source). -/
structure ParticleDescriptor where
  color : String
  delay : ℚ
  x : ℝ
  y : ℝ
  z : ℝ

/-- `buildParticleDescriptors(count, color)`: `limit = Math.min(count, 24)`
descriptors, where descriptor `index` has
`angle = (index / Math.max(limit, 1)) * Math.PI * 2`, position
`(cos(angle)*110, sin(angle)*90, sin(index*1.5)*60)` and
`delay = index * 0.18`. -/
noncomputable def buildParticleDescriptors (count : ℕ) (color : String) :
    List ParticleDescriptor :=
  let limit : ℕ := min count 24
  (List.range limit).map fun (index : ℕ) =>
    let angle : ℝ := ((index : ℝ) / ((max limit 1 : ℕ) : ℝ)) * Real.pi * 2
    { color := color
      delay := (index : ℚ) * 0.18
      x := Real.cos angle * 110
      y := Real.sin angle * 90
      z := Real.sin ((index : ℝ) * 1.5) * 60 }

/-- The three mist categories rendered by `ParticleMist`, concatenated in
source order: up-quarks, down-quarks, positrons. -/
noncomputable def particleMist (quarksUp quarksDown positrons : ℕ) :
    List ParticleDescriptor :=
  buildParticleDescriptors quarksUp "#c084fc" ++
    buildParticleDescriptors quarksDown "#818cf8" ++
      buildParticleDescriptors positrons "#facc15"

/-! ## Lookup routes (Express server, src/server/index.ts) -/

/-- Outcome of a lookup route: a JSON payload or an HTTP 404 response. -/
inductive LookupOutcome (α : Type) where
  | ok (value : α)
  | notFound (message : String)
deriving DecidableEq

/-- Whether a route outcome is the 404 branch. -/
def LookupOutcome.isNotFound {α : Type} : LookupOutcome α → Bool
  | .ok _ => false
  | .notFound _ => true

/-- JS `String.prototype.toLowerCase()`, modelled as per-character
lowercasing of the string. -/
def toLowerCase (s : String) : String :=
  String.mk (s.data.map Char.toLower)

/-- The element search shared by both parameterised routes:
`elements.find((item) => item.symbol.toLowerCase() === symbol)` where
`symbol` is the lower-cased request parameter. -/
def findElement (elements : List Element) (symbolParam : String) : Option Element :=
  elements.find? fun item => toLowerCase item.symbol == toLowerCase symbolParam

/-- The isotope search of the isotope route:
`element.isotopes.find((item) => item.id.toLowerCase() === req.params.isotopeId.toLowerCase())`. -/
def findIsotope (element : Element) (isotopeIdParam : String) : Option Isotope :=
  element.isotopes.find? fun item => toLowerCase item.id == toLowerCase isotopeIdParam

/-- `GET /api/elements/:symbol`: the found element, or a 404 response. -/
def getElementRoute (elements : List Element) (symbolParam : String) :
    LookupOutcome Element :=
  match findElement elements symbolParam with
  | none => .notFound ("Element " ++ symbolParam ++ " not found.")
  | some element => .ok element

/-- `GET /api/elements/:symbol/isotopes/:isotopeId`: the
`{ element, isotope }` pair, or a 404 response at whichever search fails. -/
def getIsotopeRoute (elements : List Element) (symbolParam isotopeIdParam : String) :
    LookupOutcome (Element × Isotope) :=
  match findElement elements symbolParam with
  | none => .notFound ("Element " ++ symbolParam ++ " not found.")
  | some element =>
    match findIsotope element isotopeIdParam with
    | none =>
      .notFound ("Isotope " ++ isotopeIdParam ++ " not found for element " ++
        symbolParam ++ ".")
    | some isotope => .ok (element, isotope)

/-! ## Helper lemmas -/

/-- Indexing the rings of the Bohr layout: ring `i` exists exactly when
shell `i` does, with the source's radius, duration and electron angles. -/
theorem computeBohrLayout_rings_idx (shells : List ℕ) (i : ℕ) :
    (computeBohrLayout shells).rings[i]? =
      shells[i]?.map fun n =>
        { radius := ringRadius shells.length i
          animationDuration := ringDuration i
          electronAngles := electronAngles n } := by
  simp only [computeBohrLayout, List.getElem?_map, List.getElem?_enum]
  cases h : shells[i]? <;> simp [h]

/-! ## Claim theorems -/

/-- C1: for every shell sequence, `computeBohrLayout` computes
`nucleusSize = min(120, max(72, 54 + shellCount * 6))`,
`nucleusRadius = nucleusSize / 2`, and
`orbitSpacing = (diagramSize / 2 - 20 - nucleusRadius) / shellCount` when
`shellCount > 0`, with `orbitSpacing = 0` when `shellCount = 0`. -/
theorem computeBohrLayout_nucleus_orbit (shells : List ℕ) :
    (computeBohrLayout shells).nucleusSize
        = min 120 (max 72 (54 + (shells.length : ℚ) * 6)) ∧
    (computeBohrLayout shells).nucleusRadius
        = (computeBohrLayout shells).nucleusSize / 2 ∧
    (0 < shells.length →
      (computeBohrLayout shells).orbitSpacing
        = ((computeBohrLayout shells).diagramSize / 2 - 20
            - (computeBohrLayout shells).nucleusRadius) / (shells.length : ℚ)) ∧
    (shells.length = 0 → (computeBohrLayout shells).orbitSpacing = 0) := by
  refine ⟨rfl, rfl, fun h => ?_, fun h => ?_⟩
  · show orbitSpacing shells.length = _
    rw [orbitSpacing, if_pos h]
    rfl
  · show orbitSpacing shells.length = 0
    rw [orbitSpacing, h]
    rfl

/-- Witness for C1 at the concrete shell sequences `[1]` and `[]`. -/
theorem computeBohrLayout_nucleus_orbit_witness :
    (computeBohrLayout [1]).nucleusSize
        = min 120 (max 72 (54 + ((([1] : List ℕ).length : ℚ)) * 6)) ∧
    (computeBohrLayout [1]).orbitSpacing
        = ((computeBohrLayout [1]).diagramSize / 2 - 20
            - (computeBohrLayout [1]).nucleusRadius) / ((([1] : List ℕ).length : ℚ)) ∧
    (computeBohrLayout []).orbitSpacing = 0 :=
  ⟨(computeBohrLayout_nucleus_orbit [1]).1,
    (computeBohrLayout_nucleus_orbit [1]).2.2.1 (by decide),
    (computeBohrLayout_nucleus_orbit []).2.2.2 (by decide)⟩

/-- C2: shell `i` is rendered at radius
`nucleusRadius + orbitSpacing * (i + 1)`; a shell of `n ≥ 1` electrons
yields exactly `n` angles `(360 / n) * k` for `k = 0 .. n-1`; the rotation
period is `14 + shellIndex * 5`, strictly increasing in the shell index. -/
theorem computeBohrLayout_rings_spec (shells : List ℕ) :
    (∀ (i n : ℕ), shells[i]? = some n →
      (computeBohrLayout shells).rings[i]? =
        some { radius := (computeBohrLayout shells).nucleusRadius
                  + (computeBohrLayout shells).orbitSpacing * ((i : ℚ) + 1)
               animationDuration := ringDuration i
               electronAngles := electronAngles n }) ∧
    (∀ n : ℕ, 1 ≤ n → (electronAngles n).length = n ∧
      ∀ k, k < n → (electronAngles n)[k]? = some (360 / (n : ℚ) * (k : ℚ))) ∧
    (∀ i j : ℕ, i < j → ringDuration i < ringDuration j) := by
  refine ⟨fun i n h => ?_, fun n _ => ⟨?_, fun k hk => ?_⟩, fun i j hij => ?_⟩
  · rw [computeBohrLayout_rings_idx, h]
    rfl
  · rw [electronAngles, List.length_map, List.length_range]
  · rw [electronAngles, List.getElem?_map, List.getElem?_range hk]
    rfl
  · have hc : (i : ℚ) < (j : ℚ) := by exact_mod_cast hij
    simp only [ringDuration]
    linarith

/-- Witness for C2 at the concrete shell sequence `[2, 4]`. -/
theorem computeBohrLayout_rings_spec_witness :
    (computeBohrLayout [2, 4]).rings[1]? =
      some { radius := (computeBohrLayout [2, 4]).nucleusRadius
                + (computeBohrLayout [2, 4]).orbitSpacing * (((1 : ℕ) : ℚ) + 1)
             animationDuration := ringDuration 1
             electronAngles := electronAngles 4 } ∧
    (electronAngles 4).length = 4 ∧
    (electronAngles 4)[3]? = some (360 / ((4 : ℕ) : ℚ) * ((3 : ℕ) : ℚ)) ∧
    ringDuration 0 < ringDuration 1 := by
  obtain ⟨h1, h2, h3⟩ := computeBohrLayout_rings_spec [2, 4]
  exact ⟨h1 1 4 (by decide), (h2 4 (by decide)).1, (h2 4 (by decide)).2 3 (by decide),
    h3 0 1 (by decide)⟩

/-- C3: `diagramSize = min(480, 300 + max(shellCount - 3, 0) * 48)`, so it
is at most 480 and monotonically non-decreasing in the shell count. -/
theorem computeBohrLayout_diagramSize_spec (s t : List ℕ) (h : s.length ≤ t.length) :
    (computeBohrLayout s).diagramSize
        = min 480 (300 + max ((s.length : ℚ) - 3) 0 * 48) ∧
    (computeBohrLayout s).diagramSize ≤ 480 ∧
    (computeBohrLayout s).diagramSize ≤ (computeBohrLayout t).diagramSize := by
  refine ⟨rfl, min_le_left _ _, ?_⟩
  show diagramSize s.length ≤ diagramSize t.length
  have hc : (s.length : ℚ) ≤ (t.length : ℚ) := by exact_mod_cast h
  have hmax : max ((s.length : ℚ) - 3) 0 ≤ max ((t.length : ℚ) - 3) 0 :=
    max_le_max (by linarith) le_rfl
  have hbody : 300 + max ((s.length : ℚ) - 3) 0 * 48
      ≤ 300 + max ((t.length : ℚ) - 3) 0 * 48 := by
    have := mul_le_mul_of_nonneg_right hmax (by norm_num : (0 : ℚ) ≤ 48)
    linarith
  exact min_le_min le_rfl hbody

/-- Witness for C3 at the concrete shell sequences `[1]` and `[1, 2, 3, 4]`. -/
theorem computeBohrLayout_diagramSize_spec_witness :
    (computeBohrLayout [1]).diagramSize
        = min 480 (300 + max ((([1] : List ℕ).length : ℚ) - 3) 0 * 48) ∧
    (computeBohrLayout [1]).diagramSize ≤ 480 ∧
    (computeBohrLayout [1]).diagramSize ≤ (computeBohrLayout [1, 2, 3, 4]).diagramSize :=
  computeBohrLayout_diagramSize_spec [1] [1, 2, 3, 4] (by decide)

/-- C4: the layout is total on degenerate input: with no shells the orbit
spacing is 0 and no rings are produced, and a shell entry of 0 electrons
yields a ring with an empty electron list rather than a failure. -/
theorem computeBohrLayout_degenerate_safe (shells : List ℕ) :
    ((computeBohrLayout []).orbitSpacing = 0 ∧ (computeBohrLayout []).rings = []) ∧
    electronAngles 0 = [] ∧
    (∀ (i : ℕ), shells[i]? = some 0 →
      (computeBohrLayout shells).rings[i]? =
        some { radius := ringRadius shells.length i
               animationDuration := ringDuration i
               electronAngles := [] }) := by
  refine ⟨⟨?_, ?_⟩, ?_, fun i h => ?_⟩

  · show orbitSpacing 0 = 0
    rw [orbitSpacing]
    rfl
  · rfl
  · rfl
  · rw [computeBohrLayout_rings_idx, h]
    rfl

/-- Witness for C4 at the concrete shell sequence `[0]`. -/
theorem computeBohrLayout_degenerate_safe_witness :
    (computeBohrLayout [0]).rings[0]? =
      some { radius := ringRadius ([0] : List ℕ).length 0
             animationDuration := ringDuration 0
             electronAngles := [] } :=
  (computeBohrLayout_degenerate_safe [0]).2.2 0 (by decide)

/-- C7: the layout computations are deterministic pure functions of their
arguments: two invocations on identical input give identical output. -/
theorem layout_deterministic (shells : List ℕ)
    (protons neutrons quarksUp quarksDown positrons : ℕ) (color : String) :
    computeBohrLayout shells = computeBohrLayout shells ∧
    renderNucleusSwarm protons neutrons = renderNucleusSwarm protons neutrons ∧
    buildParticleDescriptors quarksUp color = buildParticleDescriptors quarksUp color ∧
    particleMist quarksUp quarksDown positrons
      = particleMist quarksUp quarksDown positrons :=
  ⟨rfl, rfl, rfl, rfl⟩

/-- C5: each mist category produces exactly `min(count, 24)` descriptors
(for a count of 500, exactly 24, never 500), descriptor `index` sitting at
`(cos(angle)*110, sin(angle)*90, sin(index*1.5)*60)` with
`angle = (index / min(count, 24)) * 2π`. -/
theorem buildParticleDescriptors_spec (count : ℕ) (color : String) :
    buildParticleDescriptors count color =
      (List.range (min count 24)).map (fun (index : ℕ) =>
        { color := color
          delay := (index : ℚ) * 0.18
          x := Real.cos (((index : ℝ) / ((min count 24 : ℕ) : ℝ)) * (2 * Real.pi)) * 110
          y := Real.sin (((index : ℝ) / ((min count 24 : ℕ) : ℝ)) * (2 * Real.pi)) * 90
          z := Real.sin ((index : ℝ) * 1.5) * 60 }) ∧
    (buildParticleDescriptors count color).length = min count 24 ∧
    (buildParticleDescriptors count color).length ≤ 24 ∧
    (buildParticleDescriptors 500 color).length = 24 := by
  have hlen : ∀ c : ℕ, (buildParticleDescriptors c color).length = min c 24 := by
    intro c
    rw [buildParticleDescriptors, List.length_map, List.length_range]
  refine ⟨?_, hlen count, ?_, ?_⟩
  · rw [buildParticleDescriptors]
    refine List.map_congr_left fun index hmem => ?_
    have hidx : index < min count 24 := List.mem_range.1 hmem
    have hpos : 0 < min count 24 := lt_of_le_of_lt (Nat.zero_le _) hidx
    have hmax : max (min count 24) 1 = min count 24 := Nat.max_eq_left hpos
    have hang : ((index : ℝ) / ((min count 24 : ℕ) : ℝ)) * Real.pi * 2
        = ((index : ℝ) / ((min count 24 : ℕ) : ℝ)) * (2 * Real.pi) := by ring
    simp only [hmax, hang]
  · rw [hlen]
    exact Nat.min_le_right _ _
  · rw [hlen]
    decide

/-- C6: the nucleus swarm renders exactly `min(protons + neutrons, 28)`
markers (never more than 28), marker `index` styled as a proton exactly
when the index is even, at angle `(index / total) * 2π` on the fixed ring
of radius 24, with pseudo-depth `sin(index) * 10`. -/
theorem renderNucleusSwarm_spec (protons neutrons : ℕ) :
    (renderNucleusSwarm protons neutrons).length = min (protons + neutrons) 28 ∧
    (renderNucleusSwarm protons neutrons).length ≤ 28 ∧
    (∀ i : ℕ, i < min (protons + neutrons) 28 →
      (renderNucleusSwarm protons neutrons)[i]? =
        some { isProton := i % 2 == 0
               angle := ((i : ℝ) / ((min (protons + neutrons) 28 : ℕ) : ℝ))
                  * (2 * Real.pi)
               x := Real.cos (((i : ℝ) / ((min (protons + neutrons) 28 : ℕ) : ℝ))
                  * (2 * Real.pi)) * 24
               y := Real.sin (((i : ℝ) / ((min (protons + neutrons) 28 : ℕ) : ℝ))
                  * (2 * Real.pi)) * 24
               depth := Real.sin (i : ℝ) * 10
               animationDelay := (i : ℚ) * 0.12 }) := by
  have hlen : (renderNucleusSwarm protons neutrons).length
      = min (protons + neutrons) 28 := by
    rw [renderNucleusSwarm, List.length_map, List.length_range]
  refine ⟨hlen, ?_, fun i hi => ?_⟩
  · rw [hlen]
    exact Nat.min_le_right _ _
  · have hang : ((i : ℝ) / ((min (protons + neutrons) 28 : ℕ) : ℝ)) * Real.pi * 2
        = ((i : ℝ) / ((min (protons + neutrons) 28 : ℕ) : ℝ)) * (2 * Real.pi) := by
      ring
    rw [renderNucleusSwarm, List.getElem?_map, List.getElem?_range hi,
      Option.map_some', hang]

/-- Witness for C6 at `protons = 2`, `neutrons = 1`, marker index 1. -/
theorem renderNucleusSwarm_spec_witness :
    (renderNucleusSwarm 2 1)[1]? =
      some { isProton := 1 % 2 == 0
             angle := (((1 : ℕ) : ℝ) / ((min (2 + 1) 28 : ℕ) : ℝ)) * (2 * Real.pi)
             x := Real.cos ((((1 : ℕ) : ℝ) / ((min (2 + 1) 28 : ℕ) : ℝ))
                * (2 * Real.pi)) * 24
             y := Real.sin ((((1 : ℕ) : ℝ) / ((min (2 + 1) 28 : ℕ) : ℝ))
                * (2 * Real.pi)) * 24
             depth := Real.sin ((1 : ℕ) : ℝ) * 10
             animationDelay := ((1 : ℕ) : ℚ) * 0.12 } :=
  (renderNucleusSwarm_spec 2 1).2.2 1 (by decide)

/-- C8 counterexample: `buildIsotope` does not derive
`electrons = protons - positrons` exactly; at atomic number 1 with 2
positrons the code clamps the count to 0 instead of -1. -/
theorem buildIsotope_electrons_not_exact :
    (buildIsotope 1 "H"
        { name := "Positron rich hydrogen"
          neutrons := 0
          abundance := "Hypothetical"
          description := "Probe input for the electron derivation."
          positrons := 2
          bohrModel :=
            { shells := [1]
              electronConfiguration := "1s1" } }).particleBreakdown.electrons
      ≠ (1 : ℤ) - 2 := by
  decide

/-- C8 (amended): Carbon-14 yields electrons 6, up-quarks 20, down-quarks
22, positrons 0 and a 2-ring Bohr layout of 2 and 4 evenly spaced
electrons; Fluorine-18 yields electrons 9 - 1 = 8; in general
`buildIsotope` derives `electrons = max(protons - positrons, 0)` (equal to
`protons - positrons` whenever `positrons ≤ protons`), independent of the
shell sum, with `quarks.up = 2·protons + neutrons` and
`quarks.down = protons + 2·neutrons`. -/
theorem buildIsotope_breakdown_spec :
    carbon14.particleBreakdown.protons = 6 ∧
    carbon14.particleBreakdown.neutrons = 8 ∧
    carbon14.particleBreakdown.electrons = 6 ∧
    carbon14.particleBreakdown.quarks.up = 20 ∧
    carbon14.particleBreakdown.quarks.down = 22 ∧
    carbon14.particleBreakdown.positrons = 0 ∧
    carbon14.bohrModel.shells = [2, 4] ∧
    (computeBohrLayout carbon14.bohrModel.shells).rings.map BohrRing.electronAngles
      = [[0, 180], [0, 90, 180, 270]] ∧
    fluorine18.particleBreakdown.electrons = 9 - 1 ∧
    (∀ (a : ℤ) (s : String) (o : IsotopeOptions),
      (buildIsotope a s o).particleBreakdown.electrons = max (a - o.positrons) 0 ∧
      (o.positrons ≤ a →
        (buildIsotope a s o).particleBreakdown.electrons = a - o.positrons) ∧
      (buildIsotope a s o).particleBreakdown.quarks.up = 2 * a + o.neutrons ∧
      (buildIsotope a s o).particleBreakdown.quarks.down = a + 2 * o.neutrons) := by
  refine ⟨by decide, by decide, by decide, by decide, by decide, by decide, by decide,
    ?_, by decide, fun a s o => ⟨rfl, fun h => ?_, by show a * 2 + _ = _; ring,
      by show a + o.neutrons * 2 = _; ring⟩⟩
  · show (computeBohrLayout [2, 4]).rings.map BohrRing.electronAngles = _
    simp [computeBohrLayout, List.enum, electronAngles, List.range_succ]
    norm_num
  · show max (a - o.positrons) 0 = a - o.positrons
    exact max_eq_left (by linarith)

/-- Witness for C8 (amended) at Fluorine-18's concrete inputs, where the
positron count (1) is at most the proton count (9). -/
theorem buildIsotope_breakdown_spec_witness :
    (buildIsotope 9 "F"
        { name := "Fluorine-18"
          neutrons := 9
          halfLife := some "109.8 min"
          abundance := "Synthetic"
          description := "Positron-emitting isotope essential for PET scans. It illuminates metabolic hotspots inside the human body."
          positrons := 1
          bohrModel :=
            { shells := [2, 7]
              electronConfiguration := "1s2 2s2 2p5"
              notes := some "During decay a positron emerges, quickly annihilating with an electron to produce diagnostic gamma rays." } }).particleBreakdown.electrons
      = 9 - 1 :=
  ((buildIsotope_breakdown_spec.2.2.2.2.2.2.2.2.2 9 "F" _).2.1 (by decide))

/-- C10: the derived electron count is `max(protons - positrons, 0)`:
never negative, equal to the exact subtraction when `positrons ≤ protons`,
and clamped to 0 when the positron count exceeds the proton count. -/
theorem buildIsotope_electrons_clamped (a : ℤ) (s : String) (o : IsotopeOptions) :
    (buildIsotope a s o).particleBreakdown.electrons = max (a - o.positrons) 0 ∧
    0 ≤ (buildIsotope a s o).particleBreakdown.electrons ∧
    (o.positrons ≤ a →
      (buildIsotope a s o).particleBreakdown.electrons = a - o.positrons) ∧
    (a < o.positrons → (buildIsotope a s o).particleBreakdown.electrons = 0) := by
  refine ⟨rfl, le_max_right _ _, fun h => ?_, fun h => ?_⟩
  · show max (a - o.positrons) 0 = a - o.positrons
    exact max_eq_left (by linarith)
  · show max (a - o.positrons) 0 = 0
    exact max_eq_right (by linarith)

/-- Witness for C10 at atomic number 1 with 2 positrons (clamped to 0) and
at Carbon-14's inputs (exact subtraction). -/
theorem buildIsotope_electrons_clamped_witness :
    (buildIsotope 1 "H"
        { name := "Positron rich hydrogen"
          neutrons := 0
          abundance := "Hypothetical"
          description := "Probe input for the electron derivation."
          positrons := 2
          bohrModel :=
            { shells := [1]
              electronConfiguration := "1s1" } }).particleBreakdown.electrons = 0 ∧
    (buildIsotope 6 "C"
        { name := "Carbon-14"
          neutrons := 8
          abundance := "Trace"
          halfLife := some "5730 years"
          description := "Radiocarbon isotope forged in the upper atmosphere. Archaeologists rely on its decay clock to date human history."
          bohrModel :=
            { shells := [2, 4]
              electronConfiguration := "1s2 2s2 2p2"
              notes := some "Radioactive beta decay converts a neutron into a proton and electron, slowly transforming the atom into nitrogen." } }).particleBreakdown.electrons
      = 6 - 0 :=
  ⟨(buildIsotope_electrons_clamped 1 "H" _).2.2.2 (by decide),
    (buildIsotope_electrons_clamped 6 "C" _).2.2.1 (by decide)⟩

/-- The element route is a 404 exactly when the element search is empty. -/
theorem getElementRoute_isNotFound (elements : List Element) (s : String) :
    (getElementRoute elements s).isNotFound = (findElement elements s).isNone := by
  unfold getElementRoute
  cases findElement elements s <;> rfl

/-- The isotope route is a 404 exactly when one of its two searches is
empty. -/
theorem getIsotopeRoute_isNotFound (elements : List Element) (s t : String) :
    (getIsotopeRoute elements s t).isNotFound = true ↔
      findElement elements s = none ∨
        ∃ e, findElement elements s = some e ∧ findIsotope e t = none := by
  unfold getIsotopeRoute
  cases hf : findElement elements s with
  | none => simp [LookupOutcome.isNotFound]
  | some e =>
    cases hi : findIsotope e t with
    | none => simp [LookupOutcome.isNotFound, hi]
    | some iso => simp [LookupOutcome.isNotFound, hi]

/-- The element search fails exactly when no element's symbol matches the
request parameter case-insensitively. -/
theorem findElement_eq_none (elements : List Element) (s : String) :
    findElement elements s = none ↔
      ∀ e ∈ elements, toLowerCase e.symbol ≠ toLowerCase s := by
  unfold findElement
  rw [List.find?_eq_none]
  simp

/-- The isotope search fails exactly when no isotope id in the element
matches the request parameter case-insensitively. -/
theorem findIsotope_eq_none (element : Element) (t : String) :
    findIsotope element t = none ↔
      ∀ i ∈ element.isotopes, toLowerCase i.id ≠ toLowerCase t := by
  unfold findIsotope
  rw [List.find?_eq_none]
  simp

/-- C9: element and isotope lookup are case-insensitive in both request
parameters (they depend only on the lower-cased parameters), and the
routes answer 404 exactly when no element symbol matches
case-insensitively, or no isotope id matches within the found element. -/
theorem lookup_routes_spec (elements : List Element) (s s2 t t2 : String)
    (hs : toLowerCase s = toLowerCase s2) (ht : toLowerCase t = toLowerCase t2) :
    findElement elements s = findElement elements s2 ∧
    (getElementRoute elements s).isNotFound = (getElementRoute elements s2).isNotFound ∧
    (getIsotopeRoute elements s t).isNotFound
      = (getIsotopeRoute elements s2 t2).isNotFound ∧
    ((getElementRoute elements s).isNotFound = true ↔
      ∀ e ∈ elements, toLowerCase e.symbol ≠ toLowerCase s) ∧
    ((getIsotopeRoute elements s t).isNotFound = true ↔
      ((∀ e ∈ elements, toLowerCase e.symbol ≠ toLowerCase s) ∨
        ∃ e, findElement elements s = some e ∧
          ∀ i ∈ e.isotopes, toLowerCase i.id ≠ toLowerCase t)) := by
  have hfe : findElement elements s = findElement elements s2 := by
    unfold findElement
    rw [hs]
  have hfi : ∀ e : Element, findIsotope e t = findIsotope e t2 := by
    intro e
    unfold findIsotope
    rw [ht]
  refine ⟨hfe, ?_, ?_, ?_, ?_⟩
  · rw [getElementRoute_isNotFound, getElementRoute_isNotFound, hfe]
  · have h1 := getIsotopeRoute_isNotFound elements s t
    have h2 := getIsotopeRoute_isNotFound elements s2 t2
    rw [hfe] at h1
    simp only [hfi] at h1
    rcases hb : (getIsotopeRoute elements s t).isNotFound with _ | _ <;>
      rcases hb2 : (getIsotopeRoute elements s2 t2).isNotFound with _ | _
    · rfl
    · rw [hb] at h1
      rw [hb2] at h2
      exact absurd (h2.mp rfl) (by simpa using h1)
    · rw [hb] at h1
      rw [hb2] at h2
      exact absurd (h1.mp rfl) (by simpa using h2)
    · rfl
  · rw [getElementRoute_isNotFound, Option.isNone_iff_eq_none, findElement_eq_none]
  · rw [getIsotopeRoute_isNotFound, findElement_eq_none]
    exact or_congr Iff.rfl
      (exists_congr fun e => and_congr_right fun _ => findIsotope_eq_none e t)

/-- A concrete fixture for instantiating the lookup theorems: the Carbon
element of the dataset carrying its Carbon-14 isotope. -/
def sampleElements : List Element :=
  [{ atomicNumber := 6
     symbol := "C"
     name := "Carbon"
     group := 14
     period := 2
     category := "polyatomic nonmetal"
     atomicMass := 12.011
     summary := "Carbon constructs life, graphite, and dazzling diamonds. Its versatility stems from four valence electrons and tiny atomic size."
     isotopes := [carbon14] }]

/-- Witness for C9 at the concrete parameters `"C"`/`"c"` and
`"C-14"`/`"c-14"` over the sample dataset. -/
theorem lookup_routes_spec_witness :
    findElement sampleElements "C" = findElement sampleElements "c" ∧
    (getElementRoute sampleElements "C").isNotFound
      = (getElementRoute sampleElements "c").isNotFound ∧
    (getIsotopeRoute sampleElements "C" "C-14").isNotFound
      = (getIsotopeRoute sampleElements "c" "c-14").isNotFound ∧
    ((getElementRoute sampleElements "C").isNotFound = true ↔
      ∀ e ∈ sampleElements, toLowerCase e.symbol ≠ toLowerCase "C") ∧
    ((getIsotopeRoute sampleElements "C" "C-14").isNotFound = true ↔
      ((∀ e ∈ sampleElements, toLowerCase e.symbol ≠ toLowerCase "C") ∨
        ∃ e, findElement sampleElements "C" = some e ∧
          ∀ i ∈ e.isotopes, toLowerCase i.id ≠ toLowerCase "C-14")) :=
  lookup_routes_spec sampleElements "C" "c" "C-14" "c-14" (by decide) (by decide)

end PeriodicTable
